import Mathlib

/-!
Formalization of the content-filtering logic of a Reddit-feed browser
extension (source: src/src/index.ts).  The TypeScript class Filter is
embedded shallowly: pure fragments become Lean functions, the DOM and the
browser APIs are replaced by explicit data (element views, fetch outcomes,
explicit state records), and JavaScript numbers standing for epoch
milliseconds become Int; the one floating-point constant (30.44 average
days per month) is modelled by the exact rational 3044/100.
-/

namespace RedditFilter

/-! ### Word-boundary regex model (index.ts, findMatchingKeyword, lines 479-489)

The source builds, for each keyword, the pattern "\b" ++ escaped keyword
++ "\b" (metacharacters escaped by the replace on line 483) and tests it
against the lowercased title.  We model exactly the pattern language the
source can produce: a sequence of literal characters and word-boundary
assertions.  JavaScript word characters are ASCII letters, digits and
underscore. -/

/-- JS String.prototype.toLowerCase, for the ASCII range the claims
exercise: lowercase every character. -/
def jsToLower (s : String) : String :=
  String.mk (s.data.map Char.toLower)

def isWordChar (c : Char) : Bool :=
  ('a' ≤ c && c ≤ 'z') || ('A' ≤ c && c ≤ 'Z') || ('0' ≤ c && c ≤ '9') || c = '_'

/-- Is the character at position p of the text a word character?
Out-of-range positions count as non-word, as at the ends of a JS subject
string. -/
def wordAt (text : List Char) (p : Nat) : Bool :=
  match text.get? p with
  | some c => isWordChar c
  | none => false

/-- JS regex word boundary between positions p-1 and p: holds when exactly
one of the two neighbouring characters is a word character. -/
def boundaryAt (text : List Char) (p : Nat) : Bool :=
  (if p = 0 then false else wordAt text (p - 1)) != wordAt text p

/-- The regex metacharacters escaped by the source (line 483): the
character class [.*+?^$\x7b\x7d()|[\]\\] of the replace call. -/
def isRegexMeta (c : Char) : Bool :=
  c = '.' || c = '*' || c = '+' || c = '?' || c = '^' || c = '$' ||
  c = '\x7b' || c = '\x7d' || c = '(' || c = ')' || c = '|' ||
  c = '[' || c = ']' || c = '\\'

/-- One step of the escaping replace: a metacharacter becomes backslash
followed by itself, anything else is kept. -/
def escapeChar (c : Char) : List Char :=
  if isRegexMeta c then ['\\', c] else [c]

/-- keyword.replace of line 483: escape every regex metacharacter. -/
def escapeRegExp : List Char → List Char
  | [] => []
  | c :: rest => escapeChar c ++ escapeRegExp rest

/-- A token of the (restricted) pattern language the source can build:
a word-boundary assertion or a literal character. -/
inductive RTok where
  | bnd : RTok
  | lit : Char → RTok
deriving Repr, DecidableEq

/-- Parse a pattern string into tokens.  A backslash followed by b is the
boundary assertion; a backslash followed by any other character is that
literal character; a bare non-metacharacter is itself; a bare
metacharacter (which the source escaping can never produce) or a trailing
backslash is rejected. -/
def parseTokens : List Char → Option (List RTok)
  | [] => some []
  | c :: rest =>
    if c = '\\' then
      match rest with
      | [] => none
      | d :: rest2 =>
        (parseTokens rest2).map (fun ts => (if d = 'b' then RTok.bnd else RTok.lit d) :: ts)
    else if isRegexMeta c then none
    else (parseTokens rest).map (fun ts => RTok.lit c :: ts)

/-- Token-list matching at position i of the text. -/
def matchAt : List RTok → List Char → Nat → Bool
  | [], _, _ => true
  | RTok.bnd :: rest, text, i => boundaryAt text i && matchAt rest text i
  | RTok.lit c :: rest, text, i => (text.get? i == some c) && matchAt rest text (i + 1)

/-- regex.test: does the token list match at some position of the text? -/
def regexTestTk (toks : List RTok) (text : List Char) : Bool :=
  (List.range (text.length + 1)).any (fun i => matchAt toks text i)

/-- The pattern string the source builds for one keyword (line 483):
backslash-b, the escaped lowercased keyword, backslash-b. -/
def keywordPattern (kw : String) : List Char :=
  '\\' :: 'b' :: (escapeRegExp (jsToLower kw).data ++ ['\\', 'b'])

/-- regex.test(lowerText) of line 484 for the pattern built from kw. -/
def keywordRegexTest (kw : String) (lowerText : String) : Bool :=
  match parseTokens (keywordPattern kw) with
  | some toks => regexTestTk toks lowerText.data
  | none => false

/-- findMatchingKeyword (lines 479-489): lowercase the text, return the
first keyword in list order whose word-boundary pattern matches. -/
def findMatchingKeyword (keywords : List String) (text : String) : Option String :=
  let lowerText := jsToLower text
  keywords.find? (fun keyword => keywordRegexTest keyword lowerText)

/-! Specification-side notion of a standalone-word occurrence, used to
state C1: the characters of kw occur literally at some position of the
text, with a word boundary immediately before and immediately after. -/

/-- The characters of kw occur literally in the text starting at i. -/
def litMatch : List Char → List Char → Nat → Bool
  | [], _, _ => true
  | c :: ks, text, i => (text.get? i == some c) && litMatch ks text (i + 1)

/-- kw occurs in text as a standalone word: literally, and delimited by
word boundaries on both sides. -/
def occursAsWordB (kw text : List Char) : Bool :=
  (List.range (text.length + 1)).any (fun i =>
    boundaryAt text i && (litMatch kw text i && boundaryAt text (i + kw.length)))

/-- Case-insensitive standalone-word occurrence on strings. -/
def occursAsWord (kw text : String) : Bool :=
  occursAsWordB (jsToLower kw).data (jsToLower text).data

/-! ### Subreddit blocking (index.ts, isBlockedSubreddit, lines 492-497) -/

/-- isBlockedSubreddit: case-insensitive exact comparison of the page
subreddit value against every block-list entry. -/
def isBlockedSubreddit (subreddits : List String) (subredditName : String) : Bool :=
  let lowerSubreddit := jsToLower subredditName
  subreddits.any (fun blocked => jsToLower blocked == lowerSubreddit)

/-! ### Settings and element model -/

/-- FilterSettings (index.ts lines 16-22). -/
structure FilterSettings where
  keywords : List String
  subreddits : List String
  enabled : Bool
  minAccountAge : Int
  accountAgeFilterEnabled : Bool
deriving Repr, DecidableEq

/-- View of a DOM element, recording exactly the queries
convertElementToPost and parseAuthorFromElementCalcAge perform: the tag
name, the attribute map, the first descendant shreddit-post (the
querySelector of line 236) and the closest enclosing article (the closest
call of line 265). -/
inductive Elem where
  | mk (tagName : String) (attrs : List (String × String))
      (innerShredditPost : Option Elem) (parentArticle : Option Elem)

def Elem.tagName : Elem → String
  | .mk t _ _ _ => t

def Elem.attrs : Elem → List (String × String)
  | .mk _ a _ _ => a

def Elem.innerShredditPost : Elem → Option Elem
  | .mk _ _ i _ => i

def Elem.parentArticle : Elem → Option Elem
  | .mk _ _ _ p => p

/-- getAttribute: none models the null return for an absent attribute. -/
def Elem.getAttr (e : Elem) (name : String) : Option String :=
  e.attrs.lookup name

/-- JS truthy-or on an attribute read: a || b keeps a only when it is
neither null nor the empty string. -/
def jsOr (a : Option String) (b : String) : String :=
  match a with
  | some s => if s = "" then b else s
  | none => b

/-- Post (index.ts lines 5-14). -/
structure Post where
  url : String
  title : String
  tagName : String
  subreddit : String
  author : String
  matchedKeyword : String
  shouldRemove : Bool
  removalReason : String
deriving Repr, DecidableEq

/-- The subreddit expression of lines 257-258:
(ele.getAttribute(s) || (shredditPost ? shredditPost.getAttribute(s) : "")) ?? "". -/
def subredditOf (ele : Elem) : String :=
  let shredditPost := if ele.tagName = "SHREDDIT-POST" then some ele else ele.innerShredditPost
  jsOr (ele.getAttr "subreddit-prefixed-name")
    (match shredditPost with
     | some sp => (sp.getAttr "subreddit-prefixed-name").getD ""
     | none => "")

/-- The subreddit rule of lines 259-262 fires: nonempty attribute value
present in the block list (case-insensitively). -/
def subredditRuleFires (s : FilterSettings) (e : Elem) : Prop :=
  subredditOf e ≠ "" ∧ isBlockedSubreddit s.subreddits (subredditOf e) = true

/-- convertElementToPost (index.ts lines 223-278), as a sequence of
updates mirroring the mutation order of the source. -/
def convertElementToPost (s : FilterSettings) (ele : Elem) : Post :=
  -- lines 224-233: fresh Post
  let p0 : Post :=
    { url := ""
      title := ""
      tagName := ele.tagName
      subreddit := ""
      author := ""
      matchedKeyword := ""
      shouldRemove := false
      removalReason := "" }
  -- line 236: the shreddit-post element carrying the structured attributes
  let shredditPost := if p0.tagName = "SHREDDIT-POST" then some ele else ele.innerShredditPost
  -- lines 237-243: url from permalink (when truthy), title from post-title
  let p1 := match shredditPost with
    | some sp =>
        { p0 with
          url :=
            match sp.getAttr "permalink" with
            | some permalink =>
                if permalink = "" then p0.url else "https://www.reddit.com" ++ permalink
            | none => p0.url
          title := (sp.getAttr "post-title").getD "" }
    | none => p0
  -- lines 246-254: ARTICLE elements take the aria-label as title and run
  -- the keyword rule on it
  let p2 := if ele.tagName = "ARTICLE" then
      let title := (ele.getAttr "aria-label").getD ""
      match findMatchingKeyword s.keywords title with
      | some k =>
          { p1 with
            title := title
            shouldRemove := true
            matchedKeyword := k
            removalReason := "keyword \"" ++ k ++ "\" matched" }
      | none => { p1 with title := title }
    else p1
  -- lines 257-262: subreddit attribute and block-list check
  let subreddit := subredditOf ele
  let p3 := { p2 with subreddit := subreddit }
  let p4 := if subreddit ≠ "" ∧ isBlockedSubreddit s.subreddits subreddit then
      { p3 with
        shouldRemove := true
        removalReason := "blocked subreddit: " ++ subreddit }
    else p3
  -- lines 264-276: for a not-yet-removed SHREDDIT-POST, run the keyword
  -- rule on the enclosing article aria-label
  if p4.shouldRemove = false ∧ p4.tagName = "SHREDDIT-POST" then
    match ele.parentArticle with
    | some parentArticle =>
        let ariaLabel := (parentArticle.getAttr "aria-label").getD ""
        let p5 := if p4.title = "" then { p4 with title := ariaLabel } else p4
        match findMatchingKeyword s.keywords ariaLabel with
        | some k =>
            { p5 with
              shouldRemove := true
              matchedKeyword := k
              removalReason := "keyword \"" ++ k ++ "\" matched" }
        | none => p5
    | none => p4
  else p4

/-! ### Counters (index.ts lines 24-28, 141-160, 189-193) -/

/-- CounterData (lines 24-28).  JS numbers holding counts become Int. -/
structure CounterData where
  totalRemoved : Int
  dailyRemoved : Int
  lastResetDate : String
deriving Repr, DecidableEq

/-- incrementCounters (lines 189-193): add one to both counters. -/
def incrementCounters (c : CounterData) : CounterData :=
  { c with totalRemoved := c.totalRemoved + 1, dailyRemoved := c.dailyRemoved + 1 }

/-- The daily-rollover step of loadCounters (lines 147-153): on a date
different from the stored one, zero the daily counter and stamp the new
date. -/
def checkRollover (c : CounterData) (today : String) : CounterData :=
  if c.lastResetDate ≠ today then { c with dailyRemoved := 0, lastResetDate := today } else c

/-- The invariant stated by the spec for FilterCounters. -/
def countersInv (c : CounterData) : Prop :=
  0 ≤ c.dailyRemoved ∧ c.dailyRemoved ≤ c.totalRemoved

/-! ### Collapse (index.ts, collapsePost, lines 344-448)

Only the guard logic and the success flag matter to the claims; the view
records whether the collapse target is still attached to the document
(line 345) and whether a collapse banner is already present inside it
(line 352).  A successful collapse installs the banner. -/

structure CollapseElem where
  attached : Bool
  hasBanner : Bool
deriving Repr, DecidableEq

/-- collapsePost: false when detached or already bannered, otherwise
install the banner and report success. -/
def collapsePost (e : CollapseElem) : Bool × CollapseElem :=
  if e.attached = false then (false, e)
  else if e.hasBanner = true then (false, e)
  else (true, { e with hasBanner := true })

/-! ### Account age (index.ts, isAccountTooYoung, lines 585-589)

Timestamps are epoch milliseconds as Int; 30.44 average days per month is
the exact rational 3044/100, so one month is 2630016000 ms. -/

def msPerMonth : ℚ := 1000 * 60 * 60 * 24 * (3044 / 100)

/-- isAccountTooYoung, lines 585-589, on a valid creation timestamp: age
in months (exact rational division) strictly below the configured
minimum. -/
def isAccountTooYoung (minAccountAge : Int) (nowMs createdAtMs : Int) : Bool :=
  decide ((((nowMs - createdAtMs : Int) : ℚ) / msPerMonth) < (minAccountAge : ℚ))

/-- A JS Date value as the age pipeline produces it: a valid epoch-ms
timestamp, or the Invalid Date that new Date yields on an unparseable
datetime string.  Either way the object is truthy; getTime of an
Invalid Date is NaN, and toISOString on it throws a RangeError. -/
inductive JsDate where
  | valid (ms : Int)
  | invalid
deriving Repr, DecidableEq

/-- isAccountTooYoung applied to a Date object, as the caller on line 291
does: for an Invalid Date, getTime is NaN, the computed age is NaN, and
the comparison NaN < minAccountAge is false, so an Invalid Date is never
judged too young. -/
def isAccountTooYoungDate (minAccountAge : Int) (nowMs : Int) : JsDate → Bool
  | JsDate.valid ms => isAccountTooYoung minAccountAge nowMs ms
  | JsDate.invalid => false

/-! ### User age cache and profile fetch (index.ts lines 30-35, 499-583) -/

/-- One cache entry (lines 30-35): the stored createdAt is whatever Date
object the parse produced, possibly an Invalid Date; fetchedAt as epoch
ms. -/
structure CacheEntry where
  createdAt : JsDate
  fetchedAt : Int
deriving Repr, DecidableEq

/-- The cache, username-keyed; insertion at the head shadows older
entries, modelling overwrite. -/
abbrev AgeCache := List (String × CacheEntry)

/-- View of the profile document handed to parseAccountCreationDate
(lines 550-583): the primary cake-day element of the long CSS selector
(line 557) and the fallback time element (line 561), each either absent
or present with an optional datetime attribute.  A present attribute is
abstracted to the JsDate that new Date yields on its string value:
JsDate.valid for a parsable datetime, JsDate.invalid for a present but
unparseable one (new Date never returns null). -/
structure ProfileDoc where
  cakeDayPrimary : Option (Option JsDate)
  cakeDayFallback : Option (Option JsDate)
deriving Repr, DecidableEq

/-- parseAccountCreationDate: primary element first; when it is absent,
the fallback element contributes only when it carries a datetime; a
present element without datetime attribute yields null.  A present
datetime always yields a Date object -- an Invalid Date when the string
is unparseable. -/
def parseAccountCreationDate (doc : ProfileDoc) : Option JsDate :=
  match doc.cakeDayPrimary with
  | none =>
      match doc.cakeDayFallback with
      | some (some datetime) => some datetime
      | _ => none
  | some none => none
  | some (some datetime) => some datetime

/-- Outcome of the network fetch of lines 516-529: a network error or a
non-ok HTTP status both end in a null return; otherwise the response
document. -/
inductive FetchOutcome where
  | failed
  | ok (doc : ProfileDoc)
deriving Repr, DecidableEq

/-- What fetchUserProfile produces: the returned value, the cache after
the call, and whether an external request was issued. -/
structure FetchResult where
  result : Option JsDate
  cache : AgeCache
  didFetch : Bool
deriving Repr, DecidableEq

/-- The cache-miss path of fetchUserProfile (lines 507-548): dedup
against in-flight requests, then fetch; a parsed creation date is cached
with the current time (line 534) and returned; a detected failure leaves
the cache alone and returns null.  When the parsed date is an Invalid
Date the cache write still happens, but the success log on line 538 then
calls toISOString on it, which throws a RangeError, so the catch on line
542 returns null -- with the fresh cache entry already in place. -/
def fetchUserProfileMiss (cache : AgeCache) (pendingRequests : List String)
    (username : String) (nowMs : Int) (outcome : FetchOutcome) : FetchResult :=
  if username ∈ pendingRequests then
    { result := none, cache := cache, didFetch := false }
  else
    match outcome with
    | .failed => { result := none, cache := cache, didFetch := true }
    | .ok doc =>
        match parseAccountCreationDate doc with
        | some createdAt =>
            match createdAt with
            | JsDate.valid ms =>
                { result := some (JsDate.valid ms)
                  cache := (username, { createdAt := JsDate.valid ms, fetchedAt := nowMs })
                    :: cache
                  didFetch := true }
            | JsDate.invalid =>
                { result := none
                  cache := (username, { createdAt := JsDate.invalid, fetchedAt := nowMs })
                    :: cache
                  didFetch := true }
        | none => { result := none, cache := cache, didFetch := true }

/-- fetchUserProfile (lines 499-548): a cache entry fetched less than
3600000 ms ago is returned at once with no external call; otherwise the
miss path runs. -/
def fetchUserProfile (cache : AgeCache) (pendingRequests : List String)
    (username : String) (nowMs : Int) (outcome : FetchOutcome) : FetchResult :=
  match cache.lookup username with
  | some cached =>
      if nowMs - cached.fetchedAt < 3600000 then
        { result := some cached.createdAt, cache := cache, didFetch := false }
      else
        fetchUserProfileMiss cache pendingRequests username nowMs outcome
  | none => fetchUserProfileMiss cache pendingRequests username nowMs outcome

/-! ### Asynchronous second pass (index.ts lines 89-125, 284-310) -/

/-- What one run of parseAuthorFromElementCalcAge did: whether it issued
an external lookup, whether it collapsed the element, whether it marked
the post removed, and the state it left behind. -/
structure AgeCheckResult where
  didFetch : Bool
  collapsed : Bool
  removed : Bool
  counters : CounterData
  cache : AgeCache
  elem : CollapseElem
deriving Repr, DecidableEq

/-- The do-nothing result: state handed back unchanged. -/
def ageCheckNoop (counters : CounterData) (cache : AgeCache) (ce : CollapseElem) :
    AgeCheckResult :=
  { didFetch := false, collapsed := false, removed := false
    counters := counters, cache := cache, elem := ce }

/-- parseAuthorFromElementCalcAge (lines 284-310): only SHREDDIT-POST
elements with a nonempty author attribute are looked up; a too-young
verdict collapses the element and increments the counters only when the
collapse succeeded; a null creation date never removes. -/
def parseAuthorFromElementCalcAge (s : FilterSettings) (ele : Elem) (post : Post)
    (cache : AgeCache) (pendingRequests : List String) (nowMs : Int)
    (outcome : FetchOutcome) (ce : CollapseElem) (counters : CounterData) :
    AgeCheckResult :=
  if post.tagName = "SHREDDIT-POST" then
    let author := (ele.getAttr "author").getD ""
    if author = "" then ageCheckNoop counters cache ce
    else
      let fr := fetchUserProfile cache pendingRequests author nowMs outcome
      match fr.result with
      | some createdAt =>
          if isAccountTooYoungDate s.minAccountAge nowMs createdAt then
            let c := collapsePost ce
            { didFetch := fr.didFetch
              collapsed := c.1
              removed := true
              counters := if c.1 then incrementCounters counters else counters
              cache := fr.cache
              elem := c.2 }
          else
            { ageCheckNoop counters fr.cache ce with didFetch := fr.didFetch }
      | none => { ageCheckNoop counters fr.cache ce with didFetch := fr.didFetch }
  else ageCheckNoop counters cache ce

/-- An on-page candidate element: its classification view, its collapse
target state, and the user-expanded marker read through
closest(article) at lines 110-114 and 316-320. -/
structure PageElem where
  id : Nat
  elem : Elem
  ce : CollapseElem
  expanded : Bool

/-- Delete an entry from the pending element map (keyed here by element
identity). -/
def deletePending (m : List (Nat × Post)) (k : Nat) : List (Nat × Post) :=
  m.filter (fun kv => kv.1 != k)

/-- The per-entry body of removePostsSecondPass (lines 102-124): a
detached element is only dropped from the map; a user-expanded element is
only dropped; otherwise parseAuthorFromElementCalcAge runs and the entry
is dropped afterwards regardless of outcome. -/
def removePostsSecondPassEntry (s : FilterSettings) (pe : PageElem) (post : Post)
    (m : List (Nat × Post)) (cache : AgeCache) (pendingRequests : List String)
    (nowMs : Int) (outcome : FetchOutcome) (counters : CounterData) :
    List (Nat × Post) × AgeCheckResult :=
  if pe.ce.attached = false then
    (deletePending m pe.id, ageCheckNoop counters cache pe.ce)
  else if pe.expanded = true then
    (deletePending m pe.id, ageCheckNoop counters cache pe.ce)
  else
    (deletePending m pe.id,
     parseAuthorFromElementCalcAge s pe.elem post cache pendingRequests nowMs outcome
       pe.ce counters)

/-! ### Synchronous first pass (index.ts, removePostsFirstPass, lines 312-338) -/

/-- Map.set on the pending map: overwrite an existing binding in place,
otherwise append. -/
def setPending (p : List (Nat × Post)) (k : Nat) (v : Post) : List (Nat × Post) :=
  if p.any (fun kv => kv.1 == k) then
    p.map (fun kv => if kv.1 == k then (k, v) else kv)
  else p ++ [(k, v)]

/-- Result of one synchronous pass: the elements as the pass left them,
the counters, the pending map, and how many collapse actions the pass
performed (the number of true returns of collapsePost). -/
structure FirstPassResult where
  elems : List PageElem
  counters : CounterData
  pending : List (Nat × Post)
  collapsedCount : Nat

/-- removePostsFirstPass (lines 312-338) over the candidate list:
user-expanded elements are skipped; an element whose Post says remove is
collapsed, incrementing the counters only on a true return; an element
that is kept is enqueued for the asynchronous pass when the age filter is
on. -/
def runFirstPass (s : FilterSettings) :
    List PageElem → CounterData → List (Nat × Post) → FirstPassResult
  | [], counters, pending =>
      { elems := [], counters := counters, pending := pending, collapsedCount := 0 }
  | pe :: rest, counters, pending =>
    if pe.expanded = true then
      let rr := runFirstPass s rest counters pending
      { rr with elems := pe :: rr.elems }
    else
      let post := convertElementToPost s pe.elem
      if post.shouldRemove = true then
        let c := collapsePost pe.ce
        let counters1 := if c.1 then incrementCounters counters else counters
        let rr := runFirstPass s rest counters1 pending
        { rr with
          elems := { pe with ce := c.2 } :: rr.elems
          collapsedCount := (if c.1 then 1 else 0) + rr.collapsedCount }
      else if s.accountAgeFilterEnabled = true then
        let rr := runFirstPass s rest counters (setPending pending pe.id post)
        { rr with elems := pe :: rr.elems }
      else
        let rr := runFirstPass s rest counters pending
        { rr with elems := pe :: rr.elems }

/-! ## Theorems -/

/-! ### Helper lemmas for the word-boundary regex model -/

theorem rf_find_congr {α : Type} (p q : α → Bool) (l : List α) (h : ∀ a, p a = q a) :
    l.find? p = l.find? q := by
  induction l with
  | nil => rfl
  | cons a l ih => simp [List.find?, h a, ih]

theorem rf_meta_not_b {c : Char} (h : isRegexMeta c = true) : c ≠ 'b' := by
  intro hb; subst hb; simp [isRegexMeta] at h

theorem rf_backslash_meta : isRegexMeta '\\' = true := by decide

/-- Parsing an escaped chunk always succeeds and yields the chunk as
literal tokens: the escaping of line 483 makes every keyword character
behave literally, never as regex syntax. -/
theorem parseTokens_escape (kw suffix : List Char) :
    parseTokens (escapeRegExp kw ++ suffix) =
      (parseTokens suffix).map (fun ts => kw.map RTok.lit ++ ts) := by
  induction kw with
  | nil =>
      simp [escapeRegExp]
  | cons c ks ih =>
      by_cases h : isRegexMeta c = true
      · have hb : c ≠ 'b' := rf_meta_not_b h
        rw [show escapeRegExp (c :: ks) ++ suffix = '\\' :: c :: (escapeRegExp ks ++ suffix) by
          simp [escapeRegExp, escapeChar, h]]
        rw [parseTokens.eq_def]
        simp [hb, ih]
        cases parseTokens suffix <;> simp
      · have hbs : c ≠ '\\' := by
          intro hc; subst hc; exact h rf_backslash_meta
        rw [show escapeRegExp (c :: ks) ++ suffix = c :: (escapeRegExp ks ++ suffix) by
          simp [escapeRegExp, escapeChar, h]]
        rw [parseTokens.eq_def]
        simp [hbs, h, ih]
        cases parseTokens suffix <;> simp

/-- The pattern the source builds for a keyword parses to: boundary,
the lowercased keyword as literals, boundary. -/
theorem parseTokens_keywordPattern (kw : String) :
    parseTokens (keywordPattern kw) =
      some (RTok.bnd :: ((jsToLower kw).data.map RTok.lit ++ [RTok.bnd])) := by
  have h2 : parseTokens ['\\', 'b'] = some [RTok.bnd] := by rfl
  have h1 := parseTokens_escape (jsToLower kw).data ['\\', 'b']
  rw [h2] at h1
  show parseTokens ('\\' :: 'b' :: (escapeRegExp (jsToLower kw).data ++ ['\\', 'b'])) = _
  rw [parseTokens.eq_def]
  simp [h1]

theorem matchAt_lits (kw : List Char) (rest : List RTok) (text : List Char) (i : Nat) :
    matchAt (kw.map RTok.lit ++ rest) text i =
      (litMatch kw text i && matchAt rest text (i + kw.length)) := by
  induction kw generalizing i with
  | nil => simp [litMatch]
  | cons c ks ih =>
      simp [matchAt, litMatch, ih, Bool.and_assoc, Nat.add_comm, Nat.add_assoc,
        Nat.add_left_comm]

/-- The regex test of line 484 is exactly the boundary-delimited literal
occurrence of the lowercased keyword. -/
theorem keywordRegexTest_eq (kw lt : String) :
    keywordRegexTest kw lt = occursAsWordB (jsToLower kw).data lt.data := by
  unfold keywordRegexTest
  rw [parseTokens_keywordPattern]
  show regexTestTk _ _ = _
  unfold regexTestTk occursAsWordB
  congr 1
  funext i
  rw [matchAt]
  rw [matchAt_lits]
  simp [matchAt]

theorem findMatchingKeyword_eq (keywords : List String) (text : String) :
    findMatchingKeyword keywords text =
      keywords.find? (fun kw => occursAsWord kw text) := by
  unfold findMatchingKeyword occursAsWord
  exact rf_find_congr _ _ keywords
    (fun kw => keywordRegexTest_eq kw (jsToLower text))

/-! ### C1 -/

/-- C1: keyword matching is whole-word and case-insensitive.
findMatchingKeyword returns exactly the first keyword in list order that
occurs in the title as a standalone word (literal occurrence delimited by
word boundaries, compared lowercased).  Concretely: the keyword ham is
found standalone, also under different letter case, but never inside the
longer word shame; and the regex metacharacter in the keyword c.t is
escaped, so the keyword matches only the literal text c.t and does not
act as a regex wildcard matching cat. -/
theorem keyword_matching_whole_word_case_insensitive_escaped :
    (∀ (keywords : List String) (title : String),
        findMatchingKeyword keywords title =
          keywords.find? (fun kw => occursAsWord kw title)) ∧
    findMatchingKeyword ["ham"] "what a shame" = none ∧
    findMatchingKeyword ["ham"] "Ham sandwich today" = some "ham" ∧
    findMatchingKeyword ["HAM"] "ham it up" = some "HAM" ∧
    findMatchingKeyword ["c.t"] "the cat sat" = none ∧
    findMatchingKeyword ["c.t"] "we use c.t here" = some "c.t" := by
  refine ⟨findMatchingKeyword_eq, ?_, ?_, ?_, ?_, ?_⟩ <;> decide

/-! ### C3 -/

/-- C3: subreddit matching is exact whole-string and case-insensitive on
the prefixed form: the test succeeds exactly when some block-list entry
equals the page value after lowercasing both; the entry R/Foo matches the
page value r/foo, and blocking r/foo does not match r/foobar. -/
theorem subreddit_matching_exact_case_insensitive :
    (∀ (blockList : List String) (pageValue : String),
        isBlockedSubreddit blockList pageValue = true ↔
          ∃ b ∈ blockList, jsToLower b = jsToLower pageValue) ∧
    isBlockedSubreddit ["R/Foo"] "r/foo" = true ∧
    isBlockedSubreddit ["r/foo"] "r/foobar" = false := by
  refine ⟨?_, by decide, by decide⟩
  intro blockList pageValue
  simp [isBlockedSubreddit, List.any_eq_true]

/-! ### C4 -/

theorem isAccountTooYoung_iff (minAge nowMs createdAtMs : Int) :
    isAccountTooYoung minAge nowMs createdAtMs = true ↔
      nowMs - createdAtMs < minAge * 2630016000 := by
  unfold isAccountTooYoung msPerMonth
  rw [decide_eq_true_iff]
  rw [div_lt_iff₀ (by norm_num)]
  rw [show ((1000 : ℚ) * 60 * 60 * 24 * (3044 / 100)) = ((2630016000 : Int) : ℚ) by norm_num]
  constructor
  · intro h; exact_mod_cast h
  · intro h; exact_mod_cast h

/-- C4: the account is judged too young exactly when its age, converted
to months at 30.44 days per month, is strictly below minAccountAge;
equivalently, when the age in milliseconds is below minAccountAge times
2630016000 ms (one average month).  An account created 3 average months
ago is too young for the threshold 12; one created 20 months ago is
not. -/
theorem account_too_young_iff_age_below_minimum :
    (∀ (minAge nowMs createdAtMs : Int),
        isAccountTooYoung minAge nowMs createdAtMs = true ↔
          nowMs - createdAtMs < minAge * 2630016000) ∧
    (∀ nowMs : Int, isAccountTooYoung 12 nowMs (nowMs - 3 * 2630016000) = true) ∧
    (∀ nowMs : Int, isAccountTooYoung 12 nowMs (nowMs - 20 * 2630016000) = false) := by
  refine ⟨isAccountTooYoung_iff, ?_, ?_⟩
  · intro nowMs
    rw [isAccountTooYoung_iff]
    omega
  · intro nowMs
    rcases Bool.eq_false_or_eq_true (isAccountTooYoung 12 nowMs (nowMs - 20 * 2630016000)) with
      hb | hb
    · have h := (isAccountTooYoung_iff 12 nowMs (nowMs - 20 * 2630016000)).mp hb
      omega
    · exact hb

/-! ### C8 -/

/-- C8: loading on a day different from lastResetDate zeroes dailyRemoved
and stamps the new date while totalRemoved is untouched, and repeating
the rollover check within the same day changes nothing. -/
theorem daily_rollover_resets_and_is_idempotent (c : CounterData) (today : String) :
    (c.lastResetDate ≠ today →
        checkRollover c today =
          { totalRemoved := c.totalRemoved, dailyRemoved := 0, lastResetDate := today }) ∧
    checkRollover (checkRollover c today) today = checkRollover c today := by
  constructor
  · intro h
    simp [checkRollover, h]
  · unfold checkRollover
    split
    · simp
    · simp_all

theorem daily_rollover_resets_and_is_idempotent_witness :
    checkRollover
        { totalRemoved := 42, dailyRemoved := 7, lastResetDate := "Fri Oct 10 2025" }
        "Sat Oct 11 2025" =
      { totalRemoved := 42, dailyRemoved := 0, lastResetDate := "Sat Oct 11 2025" } ∧
    checkRollover
        (checkRollover
          { totalRemoved := 42, dailyRemoved := 7, lastResetDate := "Fri Oct 10 2025" }
          "Sat Oct 11 2025")
        "Sat Oct 11 2025" =
      checkRollover
        { totalRemoved := 42, dailyRemoved := 7, lastResetDate := "Fri Oct 10 2025" }
        "Sat Oct 11 2025" :=
  ⟨(daily_rollover_resets_and_is_idempotent
      { totalRemoved := 42, dailyRemoved := 7, lastResetDate := "Fri Oct 10 2025" }
      "Sat Oct 11 2025").1 (by decide),
   (daily_rollover_resets_and_is_idempotent
      { totalRemoved := 42, dailyRemoved := 7, lastResetDate := "Fri Oct 10 2025" }
      "Sat Oct 11 2025").2⟩

/-! ### C9 -/

/-- C9: the invariant 0 ≤ dailyRemoved ≤ totalRemoved is preserved by the
increment operation and by the daily-rollover check, and totalRemoved
never decreases under either operation (the rollover leaves it equal). -/
theorem counters_invariant_preserved (c : CounterData) (today : String)
    (h : countersInv c) :
    countersInv (incrementCounters c) ∧ countersInv (checkRollover c today) ∧
    c.totalRemoved ≤ (incrementCounters c).totalRemoved ∧
    (checkRollover c today).totalRemoved = c.totalRemoved := by
  obtain ⟨h1, h2⟩ := h
  refine ⟨?_, ?_, ?_, ?_⟩
  · simp only [countersInv, incrementCounters]
    omega
  · unfold countersInv checkRollover
    split <;> (try simp) <;> omega
  · simp [incrementCounters]
  · unfold checkRollover
    split <;> simp

theorem counters_invariant_preserved_witness :
    countersInv
        (incrementCounters { totalRemoved := 5, dailyRemoved := 3, lastResetDate := "Mon" }) ∧
    countersInv
        (checkRollover { totalRemoved := 5, dailyRemoved := 3, lastResetDate := "Mon" } "Tue") ∧
    (5 : Int) ≤ (incrementCounters
        { totalRemoved := 5, dailyRemoved := 3, lastResetDate := "Mon" }).totalRemoved ∧
    (checkRollover { totalRemoved := 5, dailyRemoved := 3, lastResetDate := "Mon" }
        "Tue").totalRemoved = 5 :=
  counters_invariant_preserved
    { totalRemoved := 5, dailyRemoved := 3, lastResetDate := "Mon" } "Tue"
    ⟨by decide, by decide⟩

/-! ### C5 -/

/-- C5: a cache entry fetched strictly less than one hour (3600000 ms)
ago is returned immediately, with no external call and the cache
untouched; an entry fetched one hour or more ago (with no request for
that username already in flight) triggers a new external lookup. -/
theorem age_cache_fresh_hit_no_fetch_stale_refetch
    (cache : AgeCache) (pendingRequests : List String) (username : String)
    (nowMs : Int) (outcome : FetchOutcome) (entry : CacheEntry)
    (hl : cache.lookup username = some entry) :
    (nowMs - entry.fetchedAt < 3600000 →
        fetchUserProfile cache pendingRequests username nowMs outcome =
          { result := some entry.createdAt, cache := cache, didFetch := false }) ∧
    (3600000 ≤ nowMs - entry.fetchedAt → username ∉ pendingRequests →
        (fetchUserProfile cache pendingRequests username nowMs outcome).didFetch = true) := by
  constructor
  · intro h
    unfold fetchUserProfile
    rw [hl]
    simp [h]
  · intro h hp
    unfold fetchUserProfile
    rw [hl]
    have hnot : ¬(nowMs - entry.fetchedAt < 3600000) := by omega
    simp only [hnot, if_false]
    unfold fetchUserProfileMiss
    simp only [hp, if_false, if_neg hp]
    cases outcome with
    | failed => rfl
    | ok doc =>
        simp only
        cases parseAccountCreationDate doc with
        | none => rfl
        | some d => cases d <;> rfl

theorem age_cache_fresh_hit_no_fetch_stale_refetch_witness :
    fetchUserProfile [("alice", { createdAt := JsDate.valid 1000, fetchedAt := 0 })] []
        "alice" 3540000 FetchOutcome.failed =
      { result := some (JsDate.valid 1000)
        cache := [("alice", { createdAt := JsDate.valid 1000, fetchedAt := 0 })]
        didFetch := false } ∧
    (fetchUserProfile [("alice", { createdAt := JsDate.valid 1000, fetchedAt := 0 })] []
        "alice" 3660000 FetchOutcome.failed).didFetch = true :=
  ⟨(age_cache_fresh_hit_no_fetch_stale_refetch
      [("alice", { createdAt := JsDate.valid 1000, fetchedAt := 0 })] [] "alice" 3540000
      FetchOutcome.failed { createdAt := JsDate.valid 1000, fetchedAt := 0 }
      (by decide)).1 (by decide),
   (age_cache_fresh_hit_no_fetch_stale_refetch
      [("alice", { createdAt := JsDate.valid 1000, fetchedAt := 0 })] [] "alice" 3660000
      FetchOutcome.failed { createdAt := JsDate.valid 1000, fetchedAt := 0 }
      (by decide)).2 (by decide) (by decide)⟩

/-! ### C6 -/

/-- C6: the code violates the claimed failure isolation at a malformed
datetime.  A failed fetch, a document with no cake-day element, and a
present element without datetime attribute all yield null with the cache
unchanged, as claimed; but a document whose datetime attribute is
present and unparseable deposits an Invalid-Date entry in the cache for
that username: the cache write of line 534 runs before the success log
of line 538 calls toISOString on the Invalid Date, which throws, so the
catch of line 542 returns null with the poisoned entry already in
place.  Within the next hour that entry is served non-null as a fresh
cache hit with no external call.  The post is still never removed as too
young, since the NaN age comparison is false. -/
theorem malformed_datetime_poisons_age_cache :
    (fetchUserProfile [] [] "mallory" 0 FetchOutcome.failed).result = none ∧
    (fetchUserProfile [] [] "mallory" 0 FetchOutcome.failed).cache = [] ∧
    (fetchUserProfile [] [] "mallory" 0
        (FetchOutcome.ok { cakeDayPrimary := none, cakeDayFallback := none })).result =
      none ∧
    (fetchUserProfile [] [] "mallory" 0
        (FetchOutcome.ok { cakeDayPrimary := none, cakeDayFallback := none })).cache = [] ∧
    (fetchUserProfile [] [] "mallory" 0
        (FetchOutcome.ok { cakeDayPrimary := some none, cakeDayFallback := none })).result =
      none ∧
    (fetchUserProfile [] [] "mallory" 0
        (FetchOutcome.ok { cakeDayPrimary := some none, cakeDayFallback := none })).cache =
      [] ∧
    (fetchUserProfile [] [] "mallory" 0
        (FetchOutcome.ok
          { cakeDayPrimary := some (some JsDate.invalid),
            cakeDayFallback := none })).result = none ∧
    (fetchUserProfile [] [] "mallory" 0
        (FetchOutcome.ok
          { cakeDayPrimary := some (some JsDate.invalid),
            cakeDayFallback := none })).cache =
      [("mallory", { createdAt := JsDate.invalid, fetchedAt := 0 })] ∧
    (fetchUserProfile [("mallory", { createdAt := JsDate.invalid, fetchedAt := 0 })] []
        "mallory" 1000 FetchOutcome.failed).result = some JsDate.invalid ∧
    (fetchUserProfile [("mallory", { createdAt := JsDate.invalid, fetchedAt := 0 })] []
        "mallory" 1000 FetchOutcome.failed).didFetch = false ∧
    (parseAuthorFromElementCalcAge
        { keywords := []
          subreddits := []
          enabled := true
          minAccountAge := 12
          accountAgeFilterEnabled := true }
        (Elem.mk "SHREDDIT-POST" [("author", "mallory")] none none)
        { url := ""
          title := ""
          tagName := "SHREDDIT-POST"
          subreddit := ""
          author := ""
          matchedKeyword := ""
          shouldRemove := false
          removalReason := "" }
        [("mallory", { createdAt := JsDate.invalid, fetchedAt := 0 })] [] 1000
        FetchOutcome.failed
        { attached := true, hasBanner := false }
        { totalRemoved := 0, dailyRemoved := 0, lastResetDate := "Mon" }).removed =
      false := by
  refine ⟨?_, ?_, ?_, ?_, ?_, ?_, ?_, ?_, ?_, ?_, ?_⟩ <;> decide

/-! ### C10 -/

/-- C10: a pending entry whose Post carries a tag other than
SHREDDIT-POST is only deleted from the pending map by the asynchronous
pass: no external lookup, no collapse, no counter increment, no removal
verdict; so the account-age filter can never remove such a post. -/
theorem non_shreddit_pending_entry_only_deleted
    (s : FilterSettings) (pe : PageElem) (post : Post) (m : List (Nat × Post))
    (cache : AgeCache) (pendingRequests : List String) (nowMs : Int)
    (outcome : FetchOutcome) (counters : CounterData)
    (ht : post.tagName ≠ "SHREDDIT-POST") :
    removePostsSecondPassEntry s pe post m cache pendingRequests nowMs outcome counters =
      (deletePending m pe.id, ageCheckNoop counters cache pe.ce) ∧
    (ageCheckNoop counters cache pe.ce).didFetch = false ∧
    (ageCheckNoop counters cache pe.ce).collapsed = false ∧
    (ageCheckNoop counters cache pe.ce).removed = false ∧
    (ageCheckNoop counters cache pe.ce).counters = counters := by
  refine ⟨?_, rfl, rfl, rfl, rfl⟩
  unfold removePostsSecondPassEntry
  by_cases hat : pe.ce.attached = false
  · simp [hat]
  · by_cases hex : pe.expanded = true
    · simp [hat, hex]
    · simp only [hat, hex, if_false]
      unfold parseAuthorFromElementCalcAge
      simp [ht]

theorem non_shreddit_pending_entry_only_deleted_witness :
    removePostsSecondPassEntry
        { keywords := [], subreddits := [], enabled := true, minAccountAge := 12,
          accountAgeFilterEnabled := true }
        { id := 0, elem := Elem.mk "ARTICLE" [("author", "bob")] none none,
          ce := { attached := true, hasBanner := false }, expanded := false }
        { url := "", title := "some title", tagName := "ARTICLE", subreddit := "",
          author := "", matchedKeyword := "", shouldRemove := false, removalReason := "" }
        [(0, { url := "", title := "some title", tagName := "ARTICLE", subreddit := "",
               author := "", matchedKeyword := "", shouldRemove := false,
               removalReason := "" })]
        [] [] 0 FetchOutcome.failed
        { totalRemoved := 0, dailyRemoved := 0, lastResetDate := "Mon" } =
      ([], ageCheckNoop { totalRemoved := 0, dailyRemoved := 0, lastResetDate := "Mon" } []
        { attached := true, hasBanner := false }) :=
  (non_shreddit_pending_entry_only_deleted
    { keywords := [], subreddits := [], enabled := true, minAccountAge := 12,
      accountAgeFilterEnabled := true }
    { id := 0, elem := Elem.mk "ARTICLE" [("author", "bob")] none none,
      ce := { attached := true, hasBanner := false }, expanded := false }
    { url := "", title := "some title", tagName := "ARTICLE", subreddit := "",
      author := "", matchedKeyword := "", shouldRemove := false, removalReason := "" }
    [(0, { url := "", title := "some title", tagName := "ARTICLE", subreddit := "",
           author := "", matchedKeyword := "", shouldRemove := false,
           removalReason := "" })]
    [] [] 0 FetchOutcome.failed
    { totalRemoved := 0, dailyRemoved := 0, lastResetDate := "Mon" }
    (by decide)).1

/-! ### C7 helper lemmas -/

theorem collapsePost_detached (e : CollapseElem) (h : e.attached = false) :
    collapsePost e = (false, e) := by
  simp [collapsePost, h]

theorem collapsePost_bannered (e : CollapseElem) (h : e.hasBanner = true) :
    collapsePost e = (false, e) := by
  unfold collapsePost
  by_cases ha : e.attached = false <;> simp [ha, h]

theorem collapsePost_after_collapse (e : CollapseElem) :
    collapsePost (collapsePost e).2 = (false, (collapsePost e).2) := by
  unfold collapsePost
  by_cases ha : e.attached = false
  · simp [ha]
  · by_cases hb : e.hasBanner = true <;> simp [ha, hb]

/-- An element the first pass has already handled: skipped as
user-expanded, classified as keep, or with a collapse call that is now a
no-op. -/
def stepInert (s : FilterSettings) (pe : PageElem) : Prop :=
  pe.expanded = true ∨ (convertElementToPost s pe.elem).shouldRemove = false ∨
    collapsePost pe.ce = (false, pe.ce)

theorem runFirstPass_elems_inert (s : FilterSettings) :
    ∀ (elems : List PageElem) (counters : CounterData) (pending : List (Nat × Post)),
      ∀ pe ∈ (runFirstPass s elems counters pending).elems, stepInert s pe := by
  intro elems
  induction elems with
  | nil => intro counters pending pe h; simp [runFirstPass] at h
  | cons pe0 rest ih =>
      intro counters pending pe h
      rw [runFirstPass] at h
      by_cases hex : pe0.expanded = true
      · simp only [hex, if_pos rfl] at h
        rcases List.mem_cons.mp h with h | h
        · subst h; exact Or.inl hex
        · exact ih _ _ pe h
      · simp only [hex, if_false] at h
        by_cases hr : (convertElementToPost s pe0.elem).shouldRemove = true
        · simp only [hr, if_pos rfl] at h
          rcases List.mem_cons.mp h with h | h
          · subst h
            exact Or.inr (Or.inr (collapsePost_after_collapse pe0.ce))
          · exact ih _ _ pe h
        · simp only [hr, if_false] at h
          by_cases hage : s.accountAgeFilterEnabled = true
          · simp only [hage, if_pos rfl] at h
            rcases List.mem_cons.mp h with h | h
            · subst h
              exact Or.inr (Or.inl (by simpa using hr))
            · exact ih _ _ pe h
          · simp only [hage, if_false] at h
            rcases List.mem_cons.mp h with h | h
            · subst h
              exact Or.inr (Or.inl (by simpa using hr))
            · exact ih _ _ pe h

theorem runFirstPass_of_inert (s : FilterSettings) :
    ∀ (elems : List PageElem) (counters : CounterData) (pending : List (Nat × Post)),
      (∀ pe ∈ elems, stepInert s pe) →
      (runFirstPass s elems counters pending).elems = elems ∧
      (runFirstPass s elems counters pending).counters = counters ∧
      (runFirstPass s elems counters pending).collapsedCount = 0 := by
  intro elems
  induction elems with
  | nil => intro counters pending _; simp [runFirstPass]
  | cons pe0 rest ih =>
      intro counters pending hin
      obtain ⟨pid, pelem, pce, pexp⟩ := pe0
      have h0 : stepInert s ⟨pid, pelem, pce, pexp⟩ := hin _ (List.mem_cons_self _ rest)
      have hrest : ∀ pe ∈ rest, stepInert s pe :=
        fun pe h => hin pe (List.mem_cons_of_mem _ h)
      rw [runFirstPass]
      cases pexp with
      | true =>
          obtain ⟨ih1, ih2, ih3⟩ := ih counters pending hrest
          exact ⟨by simp [ih1], by simp [ih2], by simp [ih3]⟩
      | false =>
          by_cases hr : (convertElementToPost s pelem).shouldRemove = true
          · have hcol : collapsePost pce = (false, pce) := by
              rcases h0 with h | h | h
              · exact absurd h (by simp)
              · exact absurd hr (by simp [stepInert] at h ⊢; simp [h])
              · exact h
            obtain ⟨ih1, ih2, ih3⟩ := ih counters pending hrest
            simp only [PageElem.mk.injEq] at *
            simp [hr, hcol, ih1, ih2, ih3]
          · obtain ⟨ih1, ih2, ih3⟩ := ih counters pending hrest
            obtain ⟨ih1p, ih2p, ih3p⟩ :=
              ih counters (setPending pending pid (convertElementToPost s pelem)) hrest
            by_cases hage : s.accountAgeFilterEnabled = true
            · simp [hr, hage, ih1p, ih2p, ih3p]
            · simp [hr, hage, ih1, ih2, ih3]

/-! ### C7 -/

/-- C7: collapsePost is a no-op returning false on a detached element or
when a collapse banner is already present, and therefore running the
classification plus collapse pass a second time over the unchanged
element list performs zero further collapse actions and leaves the
counters (and the elements) exactly as the first pass left them; a
single fresh matching element is collapsed and counted exactly once by
the first pass. -/
theorem collapse_noop_makes_pass_idempotent :
    (∀ e : CollapseElem, e.attached = false → collapsePost e = (false, e)) ∧
    (∀ e : CollapseElem, e.hasBanner = true → collapsePost e = (false, e)) ∧
    (∀ (s : FilterSettings) (elems : List PageElem) (counters : CounterData)
        (pending : List (Nat × Post)),
      (runFirstPass s
          (runFirstPass s elems counters pending).elems
          (runFirstPass s elems counters pending).counters
          (runFirstPass s elems counters pending).pending).elems =
        (runFirstPass s elems counters pending).elems ∧
      (runFirstPass s
          (runFirstPass s elems counters pending).elems
          (runFirstPass s elems counters pending).counters
          (runFirstPass s elems counters pending).pending).counters =
        (runFirstPass s elems counters pending).counters ∧
      (runFirstPass s
          (runFirstPass s elems counters pending).elems
          (runFirstPass s elems counters pending).counters
          (runFirstPass s elems counters pending).pending).collapsedCount = 0) ∧
    (runFirstPass
        { keywords := ["crypto"], subreddits := [], enabled := true, minAccountAge := 12,
          accountAgeFilterEnabled := false }
        [{ id := 0, elem := Elem.mk "ARTICLE" [("aria-label", "best crypto tips")] none none,
           ce := { attached := true, hasBanner := false }, expanded := false }]
        { totalRemoved := 0, dailyRemoved := 0, lastResetDate := "Mon" } []).collapsedCount =
      1 ∧
    (runFirstPass
        { keywords := ["crypto"], subreddits := [], enabled := true, minAccountAge := 12,
          accountAgeFilterEnabled := false }
        [{ id := 0, elem := Elem.mk "ARTICLE" [("aria-label", "best crypto tips")] none none,
           ce := { attached := true, hasBanner := false }, expanded := false }]
        { totalRemoved := 0, dailyRemoved := 0, lastResetDate := "Mon" } []).counters =
      { totalRemoved := 1, dailyRemoved := 1, lastResetDate := "Mon" } := by
  refine ⟨collapsePost_detached, collapsePost_bannered, ?_, by decide, by decide⟩
  intro s elems counters pending
  exact runFirstPass_of_inert s _ _ _ (runFirstPass_elems_inert s elems counters pending)

theorem collapse_noop_makes_pass_idempotent_witness :
    collapsePost { attached := false, hasBanner := false } =
      (false, { attached := false, hasBanner := false }) ∧
    collapsePost { attached := true, hasBanner := true } =
      (false, { attached := true, hasBanner := true }) :=
  ⟨collapse_noop_makes_pass_idempotent.1 { attached := false, hasBanner := false } rfl,
   collapse_noop_makes_pass_idempotent.2.1 { attached := true, hasBanner := true } rfl⟩

/-! ### C2 helper lemmas -/

/-- A firing subreddit rule always sets the verdict and takes over the
removal reason, whatever the keyword rule did (lines 259-262 run after
the ARTICLE keyword check and assign removalReason unconditionally). -/
theorem rf_c2_subreddit_owns_reason (s : FilterSettings) (e : Elem) :
    subredditRuleFires s e →
      (convertElementToPost s e).shouldRemove = true ∧
      (convertElementToPost s e).removalReason = "blocked subreddit: " ++ subredditOf e := by
  rintro ⟨hne, hbl⟩
  unfold convertElementToPost
  simp only [hne, hbl]
  split <;> split <;> simp_all

/-- For ARTICLE elements the keyword rule runs first (lines 246-254) and
records the first matching keyword; its reason survives only when the
subreddit rule does not fire afterwards. -/
theorem rf_c2_article_keyword (s : FilterSettings) (e : Elem) :
    e.tagName = "ARTICLE" →
      ∀ k, findMatchingKeyword s.keywords ((e.getAttr "aria-label").getD "") = some k →
        (convertElementToPost s e).shouldRemove = true ∧
        (convertElementToPost s e).matchedKeyword = k ∧
        (¬ subredditRuleFires s e →
          (convertElementToPost s e).removalReason = "keyword \"" ++ k ++ "\" matched") := by
  intro hA k hk
  unfold convertElementToPost
  have hns : e.tagName ≠ "SHREDDIT-POST" := by rw [hA]; decide
  simp only [hA, hns, if_false, if_pos rfl, hk]
  by_cases hsub : subredditRuleFires s e
  · obtain ⟨hne, hbl⟩ := hsub
    simp only [hne, hbl]
    split <;> simp_all [subredditRuleFires]
  · rw [subredditRuleFires] at hsub
    push_neg at hsub
    split <;> simp_all

/-- For SHREDDIT-POST elements the keyword rule (on the enclosing
article aria-label, lines 264-276) runs only when the subreddit rule did
not fire. -/
theorem rf_c2_shreddit_keyword (s : FilterSettings) (e : Elem) :
    e.tagName = "SHREDDIT-POST" → ¬ subredditRuleFires s e →
      ∀ pa, e.parentArticle = some pa →
      ∀ k, findMatchingKeyword s.keywords ((pa.getAttr "aria-label").getD "") = some k →
        (convertElementToPost s e).shouldRemove = true ∧
        (convertElementToPost s e).matchedKeyword = k ∧
        (convertElementToPost s e).removalReason = "keyword \"" ++ k ++ "\" matched" := by
  intro hS hsub pa hpa k hk
  unfold convertElementToPost
  have hnA : e.tagName ≠ "ARTICLE" := by rw [hS]; decide
  rw [subredditRuleFires] at hsub
  push_neg at hsub
  simp only [hS, hnA, if_false, if_pos rfl, hpa, hk]
  by_cases hne : subredditOf e = ""
  · simp_all
  · have hbl := hsub hne
    simp_all

/-! ### C2 -/

/-- C2 counterexample: an ARTICLE whose aria-label matches the keyword
crypto and whose nested shreddit-post carries the blocked subreddit
r/spam.  The keyword rule fires first and records matchedKeyword, yet the
subreddit rule afterwards overwrites removalReason, so the claimed
precedence (keyword verdict and reason never overridden by the subreddit
rule) is false. -/
theorem keyword_precedence_counterexample :
    (convertElementToPost
        { keywords := ["crypto"]
          subreddits := ["r/spam"]
          enabled := true
          minAccountAge := 12
          accountAgeFilterEnabled := false }
        (Elem.mk "ARTICLE" [("aria-label", "best crypto tips")]
          (some (Elem.mk "SHREDDIT-POST"
            [("subreddit-prefixed-name", "r/spam"), ("post-title", "best crypto tips")]
            none none))
          none)).matchedKeyword = "crypto" ∧
    (convertElementToPost
        { keywords := ["crypto"]
          subreddits := ["r/spam"]
          enabled := true
          minAccountAge := 12
          accountAgeFilterEnabled := false }
        (Elem.mk "ARTICLE" [("aria-label", "best crypto tips")]
          (some (Elem.mk "SHREDDIT-POST"
            [("subreddit-prefixed-name", "r/spam"), ("post-title", "best crypto tips")]
            none none))
          none)).shouldRemove = true ∧
    (convertElementToPost
        { keywords := ["crypto"]
          subreddits := ["r/spam"]
          enabled := true
          minAccountAge := 12
          accountAgeFilterEnabled := false }
        (Elem.mk "ARTICLE" [("aria-label", "best crypto tips")]
          (some (Elem.mk "SHREDDIT-POST"
            [("subreddit-prefixed-name", "r/spam"), ("post-title", "best crypto tips")]
            none none))
          none)).removalReason = "blocked subreddit: r/spam" ∧
    (convertElementToPost
        { keywords := ["crypto"]
          subreddits := ["r/spam"]
          enabled := true
          minAccountAge := 12
          accountAgeFilterEnabled := false }
        (Elem.mk "ARTICLE" [("aria-label", "best crypto tips")]
          (some (Elem.mk "SHREDDIT-POST"
            [("subreddit-prefixed-name", "r/spam"), ("post-title", "best crypto tips")]
            none none))
          none)).removalReason ≠ "keyword \"crypto\" matched" := by
  refine ⟨?_, ?_, ?_, ?_⟩ <;> decide

/-- C2 (amended): classification sets shouldRemove when either rule
matches, but the precedence is element-shape dependent and the subreddit
rule owns the reason whenever it fires.  When the subreddit rule fires,
shouldRemove is true and removalReason names the blocked subreddit
(overwriting any keyword reason).  For ARTICLE elements the keyword rule
is evaluated first: a match sets the verdict and records the first
matching keyword in matchedKeyword, and its reason survives exactly when
the subreddit rule does not fire.  For SHREDDIT-POST elements the
subreddit rule is evaluated first, and the keyword rule (against the
enclosing article aria-label) runs only when the subreddit rule did not
fire. -/
theorem classification_precedence_amended (s : FilterSettings) (e : Elem) :
    (subredditRuleFires s e →
        (convertElementToPost s e).shouldRemove = true ∧
        (convertElementToPost s e).removalReason =
          "blocked subreddit: " ++ subredditOf e) ∧
    (e.tagName = "ARTICLE" →
      ∀ k, findMatchingKeyword s.keywords ((e.getAttr "aria-label").getD "") = some k →
        (convertElementToPost s e).shouldRemove = true ∧
        (convertElementToPost s e).matchedKeyword = k ∧
        (¬ subredditRuleFires s e →
          (convertElementToPost s e).removalReason =
            "keyword \"" ++ k ++ "\" matched")) ∧
    (e.tagName = "SHREDDIT-POST" → ¬ subredditRuleFires s e →
      ∀ pa, e.parentArticle = some pa →
      ∀ k, findMatchingKeyword s.keywords ((pa.getAttr "aria-label").getD "") = some k →
        (convertElementToPost s e).shouldRemove = true ∧
        (convertElementToPost s e).matchedKeyword = k ∧
        (convertElementToPost s e).removalReason = "keyword \"" ++ k ++ "\" matched") :=
  ⟨rf_c2_subreddit_owns_reason s e, rf_c2_article_keyword s e, rf_c2_shreddit_keyword s e⟩

theorem classification_precedence_amended_witness :
    (convertElementToPost
        { keywords := ["crypto"]
          subreddits := []
          enabled := true
          minAccountAge := 12
          accountAgeFilterEnabled := false }
        (Elem.mk "ARTICLE" [("aria-label", "best crypto tips")] none none)).shouldRemove =
      true ∧
    (convertElementToPost
        { keywords := ["crypto"]
          subreddits := []
          enabled := true
          minAccountAge := 12
          accountAgeFilterEnabled := false }
        (Elem.mk "ARTICLE" [("aria-label", "best crypto tips")] none none)).matchedKeyword =
      "crypto" ∧
    (convertElementToPost
        { keywords := ["crypto"]
          subreddits := []
          enabled := true
          minAccountAge := 12
          accountAgeFilterEnabled := false }
        (Elem.mk "ARTICLE" [("aria-label", "best crypto tips")] none none)).removalReason =
      "keyword \"crypto\" matched" := by
  have h :=
    (classification_precedence_amended
      { keywords := ["crypto"]
        subreddits := []
        enabled := true
        minAccountAge := 12
        accountAgeFilterEnabled := false }
      (Elem.mk "ARTICLE" [("aria-label", "best crypto tips")] none none)).2.1
      (by decide) "crypto" (by decide)
  exact ⟨h.1, h.2.1, h.2.2 (by unfold subredditRuleFires; decide)⟩

end RedditFilter
